import Mathlib

/-!
Verification development for the rewards-ledger backend (server.py and the
mining variant). Python dict/string payloads are modelled with Option String
fields; Python Decimal arithmetic is modelled as exact rational arithmetic
with the final two-place quantization made explicit (Decimal context
precision of 28 significant digits is treated as exact); fallible steps are
modelled with Option, where none stands for a raised exception.
-/

namespace Srv

/-- Python truthiness of an optional string value: None and "" are falsy. -/
def pyTruthy : Option String → Bool
  | none => false
  | some s => s ≠ ""

/-- Python `a or b` on two optional string values: yields b when a is falsy. -/
def pyOrStr (a b : Option String) : Option String :=
  if pyTruthy a then a else b

/-- Python `a or d` with a string literal default: always a string. -/
def pyOrD (a : Option String) (d : String) : String :=
  match a with
  | none => d
  | some s => if s = "" then d else s

/-- Digits of a numeral to a natural number; none when the list is empty or
holds a non-digit character. -/
def digitsToNat : List Char → Option Nat
  | [] => none
  | l =>
    l.foldl
      (fun acc c =>
        acc.bind (fun n => if c.isDigit then some (n * 10 + (c.toNat - 48)) else none))
      (some 0)

/-- Split a character list at dot characters, mirroring str.split on a dot. -/
def splitOnDot : List Char → List (List Char)
  | [] => [[]]
  | c :: rest =>
    let r := splitOnDot rest
    if c = '.' then [] :: r
    else
      match r with
      | h :: t => (c :: h) :: t
      | [] => [[c]]

/-- Parse a decimal-part of the Decimal numeric-string grammar into
(integer digits, fraction digits, fraction length): digits, optionally
with one dot; one of the two sides may be empty but not both. The triple
keeps the string processing inside Nat so that it is kernel-decidable. -/
def parseUnsignedDecTriple (l : List Char) : Option (ℕ × ℕ × ℕ) :=
  match splitOnDot l with
  | [intPart] => (digitsToNat intPart).map (fun n => (n, 0, 0))
  | [intPart, fracPart] =>
    if intPart = [] ∧ fracPart = [] then none
    else
      let ip : Option Nat := if intPart = [] then some 0 else digitsToNat intPart
      let fp : Option Nat := if fracPart = [] then some 0 else digitsToNat fracPart
      match ip, fp with
      | some i, some f => some (i, f, fracPart.length)
      | _, _ => none
  | _ => none

/-- The ASCII whitespace characters that str.strip() removes. -/
def isPyWs (c : Char) : Bool :=
  c = ' ' || c = '\t' || c = '\n' || c = '\r' || c = '\x0b' || c = '\x0c'

/-- Strip leading and trailing whitespace, as str.strip() does. -/
def stripPyWs (l : List Char) : List Char :=
  ((l.dropWhile isPyWs).reverse.dropWhile isPyWs).reverse

/-- The cleaning the Decimal string constructor performs before parsing
(Lib/_pydecimal.py: _parser(value.strip().replace("_", ""))): strip
surrounding whitespace, then remove every underscore. -/
def pyDecClean (l : List Char) : List Char :=
  (stripPyWs l).filter (fun c => c ≠ '_')

/-- Split a character list at exponent indicator characters (e or E),
mirroring the indicator of the Decimal numeric-string grammar. -/
def splitOnExp : List Char → List (List Char)
  | [] => [[]]
  | c :: rest =>
    let r := splitOnExp rest
    if c = 'e' || c = 'E' then [] :: r
    else
      match r with
      | h :: t => (c :: h) :: t
      | [] => [[c]]

/-- The exponent-part of the Decimal numeric-string grammar:
[sign] digits. -/
def parseExpPart (l : List Char) : Option ℤ :=
  match l with
  | '-' :: ed => (digitsToNat ed).map (fun e => -(e : ℤ))
  | '+' :: ed => (digitsToNat ed).map (fun e => (e : ℤ))
  | ed => (digitsToNat ed).map (fun e => (e : ℤ))

/-- A decimal-part with an optional [eE]exponent-part, carrying the given
sign. -/
def parseDecBody (sign : Bool) (body : List Char) : Option (Bool × ℕ × ℕ × ℕ × ℤ) :=
  match splitOnExp body with
  | [mant] => (parseUnsignedDecTriple mant).map (fun t => (sign, t.1, t.2.1, t.2.2, (0 : ℤ)))
  | [mant, expPart] =>
    match parseUnsignedDecTriple mant, parseExpPart expPart with
    | some (i, f, fl), some e => some (sign, i, f, fl, e)
    | _, _ => none
  | _ => none

/-- Model of `Decimal(str(v))` as (sign, integer digits, fraction digits,
fraction length, exponent): after the whitespace/underscore cleaning, an
optional sign, a decimal-part, and an optional [eE][sign]digits exponent,
exactly the Decimal numeric-string grammar; none models a raised
InvalidOperation. NaN and Infinity spellings are mapped to none as well,
which is observationally equivalent inside calculate_reward_points, where
every such value leads to a caught exception and a 0 return (NaN fails the
comparison, Infinity fails the final quantize). -/
def parseDecNum (s : String) : Option (Bool × ℕ × ℕ × ℕ × ℤ) :=
  match pyDecClean s.data with
  | '-' :: rest => parseDecBody true rest
  | '+' :: rest => parseDecBody false rest
  | l => parseDecBody false l

/-- Whether every underscore in the list sits between two digits, the
PEP 515 rule that int(s) enforces (unlike Decimal, int rejects leading,
trailing and doubled underscores). -/
def underscoresBetweenDigits (l : List Char) : Bool :=
  !(l.head? = some '_') && !(l.getLast? = some '_') &&
    !((l.zip l.tail).any (fun cd => cd.1 = '_' && cd.2 = '_'))

/-- Digits possibly grouped with underscores, to a natural number. -/
def pyIntDigits (l : List Char) : Option ℕ :=
  if underscoresBetweenDigits l then digitsToNat (l.filter (fun c => c ≠ '_'))
  else none

/-- Model of Python int(s) on a string: surrounding whitespace stripped,
optional sign, then digits possibly grouped with underscores between two
digits; none models a raised ValueError (and, fed from a missing
parameter, the TypeError of int(None) is modelled by the caller binding
over none). -/
def pyInt (s : String) : Option ℤ :=
  match stripPyWs s.data with
  | '-' :: rest => (pyIntDigits rest).map (fun n => -(n : ℤ))
  | '+' :: rest => (pyIntDigits rest).map (fun n => (n : ℤ))
  | l => (pyIntDigits l).map (fun n => (n : ℤ))

/-- The exact rational value of a parsed sign/digits/exponent tuple. -/
def decNumToRat : Bool × ℕ × ℕ × ℕ × ℤ → ℚ
  | (sign, i, f, fl, e) =>
    let mag : ℚ := ((i : ℚ) + (f : ℚ) / (10 : ℚ) ^ fl) * (10 : ℚ) ^ e
    if sign then -mag else mag

/-- The exact rational value of `Decimal(str(v))`, when it parses. -/
def parseDec (s : String) : Option ℚ :=
  (parseDecNum s).map decNumToRat

/-- Round a rational to an integer, ties to the even integer: the default
rounding mode (ROUND_HALF_EVEN) of the Python Decimal context. -/
def roundHalfEven (q : ℚ) : ℤ :=
  let f := ⌊q⌋
  let frac := q - f
  if frac < 1/2 then f
  else if 1/2 < frac then f + 1
  else if f % 2 = 0 then f else f + 1

/-- Model of `x.quantize(Decimal("0.01"))` under the default context:
two decimal places, ties to even. -/
def quantize2 (q : ℚ) : ℚ :=
  (roundHalfEven (q * 100) : ℚ) / 100

/-- The slots of the payload dict that calculate_reward_points reads
(VAL, amount, RAW) together with the USD slot that the CPX Research and
AdGem handlers write; the function body never reads USD. -/
structure CalcPayload where
  VAL : Option String
  amount : Option String
  RAW : Option String
  USD : Option String
deriving Repr, DecidableEq

/-- The string that reaches Decimal for provider_points:
`payload.get("VAL") or payload.get("amount") or "0"`. -/
def valSlot (p : CalcPayload) : String :=
  pyOrD (pyOrStr p.VAL p.amount) "0"

/-- The string that reaches Decimal for provider_raw:
`payload.get("RAW") or "60"`. -/
def rawSlot (p : CalcPayload) : String :=
  pyOrD p.RAW "60"

/-- The try-block of calculate_reward_points; none models a raised
exception (unparseable numeral, or division by a zero RAW). -/
def calcRewardPointsTry (p : CalcPayload) (base_dollar_rate : ℚ) : Option ℚ := do
  let provider_points ← parseDec (valSlot p)
  let provider_raw ← parseDec (rawSlot p)
  let base_rate := base_dollar_rate
  if provider_points ≤ 0 then
    pure 0
  else if provider_raw = 0 then
    none
  else
    let usd_equivalent := provider_points / provider_raw
    let system_points := usd_equivalent * base_rate
    pure (quantize2 system_points)

/-- calculate_reward_points (server.py lines 1011-1040): the except branch
returns 0. -/
def calculate_reward_points (p : CalcPayload) (base_dollar_rate : ℚ) : ℚ :=
  (calcRewardPointsTry p base_dollar_rate).getD 0

/-- A User row, restricted to the columns the webhook handlers touch: id,
email, and the spendable balance. The model (server.py lines 129-162)
names the balance column points_balance; no points attribute exists, which
is what makes the reversal-fallback lines 3052 and 3187 raise. -/
structure UserRec where
  id : ℕ
  email : String
  points_balance : ℚ
deriving Repr, DecidableEq

/-- A PendingPoint row as the webhook handlers create and query it
(earned_at, being wall-clock metadata the handlers never branch on, is
omitted). -/
structure PendingPoint where
  user_id : ℕ
  amount : ℚ
  source : String
  survey_id : Option String
  status : String
deriving Repr, DecidableEq

/-- The slice of the store the webhook handlers touch: the TransactionLog
idempotency log (tx_id column), the User rows, the PendingPoint rows, and
the parsed value of the base_dollar SystemSettings row (none when the row
is absent). -/
structure DB where
  tx_log : List String
  users : List UserRec
  pending : List PendingPoint
  base_dollar : Option ℚ
deriving Repr, DecidableEq

/-- The response shapes the three webhook handlers produce. ignored and ok
carry the reason string of the BitLabs JSON bodies; message mirrors the
CPX/AdGem message bodies; httpError models a raised HTTPException;
nameError models the uncaught UnboundLocalError in the CPX handler;
valueError models the uncaught int() failure in the AdGem handler;
attributeError models the uncaught read of the nonexistent user.points
attribute in the AdGem reversal fallback. -/
inductive WResult where
  | ignored (reason : String)
  | ok (reason : String)
  | okCredit (points : ℚ)
  | message (m : String)
  | messageCredit (m : String) (points : ℚ)
  | httpError (code : ℕ) (detail : String)
  | nameError
  | valueError
  | attributeError
deriving Repr, DecidableEq

/-- The query parameters the bitlabs_callback handler reads: the signature
sources, the URL part before the hash parameter, and the alternatively
named data fields. amount and USD are carried because the whole parameter
dict is later handed to calculate_reward_points. -/
structure BitlabsParams where
  hash : Option String
  headerSig : Option String
  urlBeforeHash : Option String
  TX : Option String
  transaction_id : Option String
  UID : Option String
  user_id : Option String
  VAL : Option String
  value : Option String
  RAW : Option String
  raw : Option String
  amount : Option String
  USD : Option String
deriving Repr, DecidableEq

/-- The dict slots of a BitLabs parameter set that calculate_reward_points
reads. -/
def bitlabsCalcPayload (p : BitlabsParams) : CalcPayload :=
  ⟨p.VAL, p.amount, p.RAW, p.USD⟩

/-- bitlabs_callback (server.py lines 2560-2654), with the HMAC check
abstracted as the verify argument. Returns the final committed store, the
response, and the list of intermediate committed stores in order, one per
db.commit() that ran. -/
def bitlabs_callback_run (verify : String → String → Bool) (db : DB) (p : BitlabsParams) :
    DB × WResult × List DB :=
  let received_hash := pyOrStr p.hash p.headerSig
  if ¬ pyTruthy received_hash then (db, .ignored "Missing signature/hash", [])
  else
    match p.urlBeforeHash with
    | none => (db, .ignored "Hash parameter not found in URL", [])
    | some payload_for_hash =>
      if ¬ verify payload_for_hash (received_hash.getD "") then
        (db, .ignored "Invalid signature/hash", [])
      else
        match (pyOrStr p.UID p.user_id).bind pyInt with
        | none => (db, .ignored "Invalid UID", [])
        | some uid =>
          if uid ≤ 0 then (db, .ignored "Invalid UID", [])
          else
            let tx := pyOrStr p.TX p.transaction_id
            if ¬ pyTruthy tx then (db, .ignored "Missing TX", [])
            else
              let txv := tx.getD ""
              if txv ∈ db.tx_log then (db, .ok "duplicate", [])
              else
                let db1 : DB := { db with tx_log := txv :: db.tx_log }
                match db1.users.find? (fun u => (u.id : ℤ) = uid) with
                | none => (db1, .ok "user not found", [db1])
                | some user =>
                  let base_dollar_rate := db1.base_dollar.getD 1
                  let reward_amount :=
                    max (calculate_reward_points (bitlabsCalcPayload p) base_dollar_rate) 0
                  let db2 : DB :=
                    if 0 < reward_amount then
                      { db1 with pending :=
                          db1.pending ++ [⟨user.id, reward_amount, "bitlabs_reward", none, "pending"⟩] }
                    else db1
                  (db2, .okCredit reward_amount, [db1, db2])

/-- The externally observable behaviour of bitlabs_callback: final store
and response. -/
def bitlabs_callback (verify : String → String → Bool) (db : DB) (p : BitlabsParams) :
    DB × WResult :=
  ((bitlabs_callback_run verify db p).1, (bitlabs_callback_run verify db p).2.1)

/-- The parameters the cpx_research_webhook handler reads. -/
structure CpxParams where
  status : Option String
  trans_id : Option String
  user_id : Option String
  sub_id : Option String
  sub_id_2 : Option String
  amount_local : Option String
  amount_usd : Option String
  points : Option String
  offer_id : Option String
  hash : Option String
  ip_click : Option String
deriving Repr, DecidableEq

/-- The CPX user lookup (server.py lines 2959-2964): by numeric id when
user_id is all digits, otherwise by case-insensitive email. -/
def cpxFindUser (db : DB) (uidStr : String) : Option UserRec :=
  match digitsToNat uidStr.data with
  | some n => db.users.find? (fun u => decide (u.id = n))
  | none => db.users.find? (fun u => decide (u.email.toLower = uidStr.toLower))

/-- cpx_research_webhook (server.py lines 2912-3067), with the MD5 check
abstracted as the verify argument. Line 2974 reads the local variable
base_dollar_rate inside its own initializing conditional before any
assignment to it, so for a known user the handler raises an
UnboundLocalError (a NameError) there, before the transaction is logged
and before any completion or reversal effect; lines 2976-3067 are
unreachable. -/
def cpx_research_webhook (verify : CpxParams → String → Bool) (db : DB) (p : CpxParams) :
    DB × WResult :=
  if ¬ (pyTruthy p.status ∧ pyTruthy p.trans_id ∧ pyTruthy p.user_id ∧ pyTruthy p.hash) then
    (db, .httpError 400 "Missing required parameters")
  else if ¬ verify p (p.hash.getD "") then
    (db, .httpError 401 "Invalid hash signature")
  else
    let trans_id := p.trans_id.getD ""
    if trans_id ∈ db.tx_log then (db, .message "Duplicate transaction ignored")
    else
      match cpxFindUser db (p.user_id.getD "") with
      | none =>
        ({ db with tx_log := trans_id :: db.tx_log }, .httpError 404 "User not found")
      | some _ =>
        (db, .nameError)

/-- The parameters the adgem_webhook handler reads. -/
structure AdgemParams where
  status : Option String
  transaction_id : Option String
  player_id : Option String
  payout : Option String
  amount : Option String
  goal_id : Option String
  goal_name : Option String
  offer_id : Option String
  offer_name : Option String
  verifier : Option String
deriving Repr, DecidableEq

/-- Delete the first list entry satisfying the test, as db.delete of the
row returned by a .first() query does. -/
def eraseFirstP (l : List PendingPoint) (t : PendingPoint → Bool) : List PendingPoint :=
  match l with
  | [] => []
  | x :: xs => if t x then xs else x :: eraseFirstP xs t

/-- adgem_webhook (server.py lines 3072-3203), with the HMAC check
abstracted as the verify argument. int(user_id) on a non-numeric player_id
raises an uncaught ValueError; the reversal fallback at line 3187 reads
the nonexistent user.points attribute (the column is points_balance) and
raises an uncaught AttributeError before anything is committed. -/
def adgem_webhook (verify : AdgemParams → String → Bool) (db : DB) (p : AdgemParams) :
    DB × WResult :=
  if ¬ (pyTruthy p.status ∧ pyTruthy p.transaction_id ∧ pyTruthy p.player_id ∧ pyTruthy p.verifier) then
    (db, .httpError 400 "Missing required parameters")
  else if ¬ verify p (p.verifier.getD "") then
    (db, .httpError 401 "Invalid signature")
  else
    let tx_id := p.transaction_id.getD ""
    if tx_id ∈ db.tx_log then (db, .message "Duplicate transaction ignored")
    else
      match pyInt (p.player_id.getD "") with
      | none => (db, .valueError)
      | some uid =>
        match db.users.find? (fun u => (u.id : ℤ) = uid) with
        | none => ({ db with tx_log := tx_id :: db.tx_log }, .httpError 404 "User not found")
        | some user =>
          let base_dollar_rate := db.base_dollar.getD 1
          let db1 : DB := { db with tx_log := tx_id :: db.tx_log }
          let reward_payload : CalcPayload :=
            if pyTruthy p.payout then ⟨none, none, none, p.payout⟩
            else if pyTruthy p.amount then ⟨p.amount, none, none, none⟩
            else ⟨some "0", none, none, none⟩
          let reward_amount := calculate_reward_points reward_payload base_dollar_rate
          if p.status = some "1" then
            let db2 : DB :=
              if 0 < reward_amount then
                { db1 with pending :=
                    db1.pending ++ [⟨user.id, reward_amount, "adgem_offerwall", p.offer_id, "pending"⟩] }
              else db1
            (db2, .messageCredit "Offer completion processed" reward_amount)
          else if p.status = some "2" then
            let isMatch : PendingPoint → Bool := fun e =>
              decide (e.user_id = user.id) && decide (e.survey_id = p.offer_id) &&
                decide (e.source = "adgem_offerwall")
            match db1.pending.find? isMatch with
            | some _ =>
              ({ db1 with pending := eraseFirstP db1.pending isMatch },
                .message "Offer reversal processed")
            | none =>
              if 0 < reward_amount then
                -- Line 3187 reads user.points, but the User model only has
                -- points_balance: uncaught AttributeError; the staged
                -- TransactionLog row is never committed, the session closes,
                -- and the store is left exactly as it was.
                (db, .attributeError)
              else (db1, .message "Offer reversal processed")
          else
            (db1, .message "Unknown status received")

/-- A MiningSession row, restricted to the columns the live-progress
endpoint reads or writes. mining_rate is the stored percentage. Timestamps
are rationals counting seconds. -/
structure MiningSession where
  deposited_amount : ℚ
  mining_rate : ℚ
  mined_amount : Option ℚ
  last_mined : Option ℚ
  created_at : ℚ
  is_active : Bool
deriving Repr, DecidableEq

/-- The per-session body of the mining_live_progress loop (the mining
variant, lines 2516-2544): given the session, the current balance column of
the session asset (None modelled as Option), and now, returns the updated
session, the updated balance, and the increment credited in this call. -/
def mining_live_accrue (s : MiningSession) (balance : Option ℚ) (now : ℚ) :
    MiningSession × ℚ × ℚ :=
  let deposited_amount := s.deposited_amount
  let mining_rate := s.mining_rate / 100
  let total_per_day := deposited_amount * mining_rate
  let seconds_in_day : ℚ := 24 * 3600
  let last_mined := s.last_mined.getD s.created_at
  let elapsed_seconds := now - last_mined
  let mined_amount := total_per_day / seconds_in_day * elapsed_seconds
  ({ s with
      mined_amount := some (s.mined_amount.getD 0 + mined_amount),
      last_mined := some now },
    balance.getD 0 + mined_amount,
    mined_amount)

/-- A UserDevice row. -/
structure UserDevice where
  user_id : ℕ
  device_fingerprint : String
  ip_address : String
  user_agent : String
  created_at : ℚ
deriving Repr, DecidableEq

/-- A FraudRule row. -/
structure FraudRule where
  rule_key : String
  limit_value : ℕ
  action : String
deriving Repr, DecidableEq

/-- A FraudFlag row. -/
structure FraudFlag where
  user_id : ℕ
  reason : String
deriving Repr, DecidableEq

/-- The columns of the User row that the fraud engine reads or writes. -/
structure FraudUser where
  id : ℕ
  is_admin : Bool
  is_flagged : Bool
  status : String
deriving Repr, DecidableEq

/-- The slice of the store the fraud engine touches. -/
structure FraudDB where
  rules : List FraudRule
  devices : List UserDevice
  flags : List FraudFlag
deriving Repr, DecidableEq

/-- The rules dict comprehension keyed by rule_key; for duplicate keys the
last row wins, hence the reverse. -/
def lookupRule (db : FraudDB) (k : String) : Option FraudRule :=
  db.rules.reverse.find? (fun r => decide (r.rule_key = k))

/-- Count of distinct user ids having a device row with this fingerprint. -/
def distinctUsersForFp (db : FraudDB) (fp : String) : ℕ :=
  (((db.devices.filter (fun d => decide (d.device_fingerprint = fp))).map
    (fun d => d.user_id)).dedup).length

/-- Whether this user already has a device row with this fingerprint. -/
def userHasFp (db : FraudDB) (uid : ℕ) (fp : String) : Bool :=
  db.devices.any (fun d => decide (d.user_id = uid) && decide (d.device_fingerprint = fp))

/-- Count of distinct fingerprints on record for this user. -/
def distinctFpsForUser (db : FraudDB) (uid : ℕ) : ℕ :=
  (((db.devices.filter (fun d => decide (d.user_id = uid))).map
    (fun d => d.device_fingerprint)).dedup).length

/-- Count of distinct IPs on record for this user in the trailing 24h. -/
def distinctIpsForUser24h (db : FraudDB) (uid : ℕ) (now : ℚ) : ℕ :=
  (((db.devices.filter (fun d =>
      decide (d.user_id = uid) && decide (now - 86400 ≤ d.created_at))).map
    (fun d => d.ip_address)).dedup).length

/-- Whether this user already has a device row with this IP in the
trailing 24h. -/
def userHasIp24h (db : FraudDB) (uid : ℕ) (ip : String) (now : ℚ) : Bool :=
  db.devices.any (fun d =>
    decide (d.user_id = uid) && decide (d.ip_address = ip) &&
      decide (now - 86400 ≤ d.created_at))

/-- apply_action of track_user_device and its login twin: flag once per
user and commit immediately when the action includes flag; suspend and
abort (the some branch of the third component) when it includes block. -/
def apply_action (user : FraudUser) (db : FraudDB) (rule : FraudRule) (message : String) :
    FraudUser × FraudDB × Option String :=
  let action := rule.action.toLower
  let flagged : FraudUser × FraudDB :=
    if action = "flag" ∨ action = "flag_and_block" then
      if db.flags.any (fun f => decide (f.user_id = user.id)) then (user, db)
      else ({ user with is_flagged := true },
            { db with flags := db.flags ++ [⟨user.id, message⟩] })
    else (user, db)
  if action = "block" ∨ action = "flag_and_block" then
    ({ flagged.1 with status := "suspended" }, flagged.2, some message)
  else (flagged.1, flagged.2, none)

/-- Rule 1 of track_user_device and of login: max users per fingerprint.
Returns the user and store together with some abort message when the rule
block-fired. -/
def rule_users_per_fp (user : FraudUser) (db : FraudDB) (fp : String) :
    FraudUser × FraudDB × Option String :=
  match lookupRule db "max_users_per_fingerprint" with
  | none => (user, db, none)
  | some rule =>
    if ¬ userHasFp db user.id fp ∧ rule.limit_value ≤ distinctUsersForFp db fp then
      apply_action user db rule
        ("Maximum users per device (" ++ toString rule.limit_value ++ ") exceeded for fingerprint.")
    else (user, db, none)

/-- Rule 2 of track_user_device and of login: max devices per user. -/
def rule_devices_per_user (user : FraudUser) (db : FraudDB) (fp : String) :
    FraudUser × FraudDB × Option String :=
  match lookupRule db "max_devices_per_user" with
  | none => (user, db, none)
  | some rule =>
    if ¬ userHasFp db user.id fp ∧ rule.limit_value ≤ distinctFpsForUser db user.id then
      apply_action user db rule
        ("Maximum devices per user (" ++ toString rule.limit_value ++ ") exceeded.")
    else (user, db, none)

/-- Rule 3 of track_user_device: max unique IPs per user in 24h. -/
def rule_ips_per_user_24h (user : FraudUser) (db : FraudDB) (ip : String) (now : ℚ) :
    FraudUser × FraudDB × Option String :=
  match lookupRule db "max_ips_per_user_24h" with
  | none => (user, db, none)
  | some rule =>
    if ¬ userHasIp24h db user.id ip now ∧ rule.limit_value ≤ distinctIpsForUser24h db user.id now then
      apply_action user db rule
        ("Maximum unique IPs per user in 24h (" ++ toString rule.limit_value ++ ") exceeded.")
    else (user, db, none)

/-- The outcome of a device-tracking or login fraud pass: allowed, or
aborted with an HTTP 403 message. -/
inductive TrackResult where
  | allowed
  | blocked (message : String)
deriving Repr, DecidableEq

/-- track_user_device (server.py lines 697-795): skip admins, evaluate the
three rules in order aborting on a block, then save the device row if this
(user, fingerprint) pair is new. -/
def track_user_device (user : FraudUser) (db : FraudDB) (fp ip ua : String) (now : ℚ) :
    FraudUser × FraudDB × TrackResult :=
  if user.is_admin then (user, db, .allowed)
  else
    match rule_users_per_fp user db fp with
    | (u1, db1, some msg) => (u1, db1, .blocked msg)
    | (u1, db1, none) =>
      match rule_devices_per_user u1 db1 fp with
      | (u2, db2, some msg) => (u2, db2, .blocked msg)
      | (u2, db2, none) =>
        match rule_ips_per_user_24h u2 db2 ip now with
        | (u3, db3, some msg) => (u3, db3, .blocked msg)
        | (u3, db3, none) =>
          if db3.devices.any (fun d =>
              decide (d.user_id = u3.id) && decide (d.device_fingerprint = fp)) then
            (u3, db3, .allowed)
          else
            (u3, { db3 with devices := db3.devices ++ [⟨u3.id, fp, ip, ua, now⟩] }, .allowed)

/-- The fraud portion of login (server.py lines 1496-1537): for non-admins
re-evaluate rules 1 and 2 inline with identical guards, then call
track_user_device. -/
def login_fraud_check (user : FraudUser) (db : FraudDB) (fp ip ua : String) (now : ℚ) :
    FraudUser × FraudDB × TrackResult :=
  if ¬ user.is_admin then
    match rule_users_per_fp user db fp with
    | (u1, db1, some msg) => (u1, db1, .blocked msg)
    | (u1, db1, none) =>
      match rule_devices_per_user u1 db1 fp with
      | (u2, db2, some msg) => (u2, db2, .blocked msg)
      | (u2, db2, none) => track_user_device u2 db2 fp ip ua now
  else track_user_device user db fp ip ua now

end Srv

namespace Srv

/-- The increment of roundHalfEven keeps nonnegative inputs nonnegative. -/
theorem roundHalfEven_nonneg (q : ℚ) (h : 0 ≤ q) : 0 ≤ roundHalfEven q := by
  unfold roundHalfEven
  have hf : 0 ≤ ⌊q⌋ := Int.floor_nonneg.mpr h
  simp only []
  split_ifs <;> omega

/-- Two-place quantization keeps nonnegative inputs nonnegative. -/
theorem quantize2_nonneg (q : ℚ) (h : 0 ≤ q) : 0 ≤ quantize2 q := by
  unfold quantize2
  have h1 : 0 ≤ roundHalfEven (q * 100) := roundHalfEven_nonneg _ (by positivity)
  have h2 : (0 : ℚ) ≤ (roundHalfEven (q * 100) : ℚ) := by exact_mod_cast h1
  positivity

end Srv

namespace Claims

open Srv

/-- C3 counterexample: the live accrual (mining_live_progress) applies no
cap. A session with deposited_amount 1 and rate 70 percent accrued over
48h reaches mined_amount 7/5, which exceeds the claimed lifetime cap
deposited_amount times rate = 7/10. -/
theorem C3_cap_counterexample :
    ((mining_live_accrue ⟨1, 70, some 0, some 0, 0, true⟩ (some 0) 172800).1.mined_amount).getD 0
        = 7/5
      ∧ (1 : ℚ) * (70 / 100) < 7/5 := by
  constructor
  · simp [mining_live_accrue]
    norm_num
  · norm_num

/-- C3 (amended): each live accrual increment equals
deposited_amount x (rate/100) / 86400 x elapsed with no cap and no floor:
the increment is nonnegative whenever the amounts are nonnegative and time
moved forward, mined_amount advances by exactly the increment (so it is
non-decreasing), the checkpoint advances to now, and zero elapsed time
yields a zero increment. mined_amount is not bounded by
deposited_amount x rate (see the counterexample). -/
theorem C3_accrual_monotone_uncapped (s : MiningSession) (b : Option ℚ) (now : ℚ)
    (hd : 0 ≤ s.deposited_amount) (hr : 0 ≤ s.mining_rate)
    (ht : s.last_mined.getD s.created_at ≤ now) :
    0 ≤ (mining_live_accrue s b now).2.2 ∧
    (mining_live_accrue s b now).1.mined_amount.getD 0
      = s.mined_amount.getD 0 + (mining_live_accrue s b now).2.2 ∧
    (mining_live_accrue s b now).1.last_mined = some now ∧
    (now = s.last_mined.getD s.created_at → (mining_live_accrue s b now).2.2 = 0) := by
  refine ⟨?_, ?_, ?_, ?_⟩
  · have h1 : (0:ℚ) ≤ s.deposited_amount * (s.mining_rate / 100) / (24 * 3600) := by positivity
    have h2 : (0:ℚ) ≤ now - s.last_mined.getD s.created_at := sub_nonneg.mpr ht
    simpa [mining_live_accrue] using mul_nonneg h1 h2
  · simp [mining_live_accrue]
  · simp [mining_live_accrue]
  · intro h
    simp [mining_live_accrue, ← h]

/-- C3 witness: the amended accrual theorem at a concrete session. -/
theorem C3_accrual_monotone_uncapped_witness :
    0 ≤ (mining_live_accrue ⟨1, 70, some 0, some 0, 0, true⟩ (some 0) 5).2.2 ∧
    (mining_live_accrue ⟨1, 70, some 0, some 0, 0, true⟩ (some 0) 5).1.mined_amount.getD 0
      = (some (0:ℚ)).getD 0 + (mining_live_accrue ⟨1, 70, some 0, some 0, 0, true⟩ (some 0) 5).2.2 ∧
    (mining_live_accrue ⟨1, 70, some 0, some 0, 0, true⟩ (some 0) 5).1.last_mined = some 5 ∧
    ((5:ℚ) = (some (0:ℚ)).getD 0 → (mining_live_accrue ⟨1, 70, some 0, some 0, 0, true⟩ (some 0) 5).2.2 = 0) :=
  C3_accrual_monotone_uncapped ⟨1, 70, some 0, some 0, 0, true⟩ (some 0) 5
    (by decide) (by decide) (by decide)

/-- C7: for a session with checkpoint t0, accruing at t1 and then at t2
gives the same mined_amount, the same credited balance, and the same total
increment as accruing once at t2; in the exact rational model the equality
is exact, hence within any rounding tolerance. -/
theorem C7_accrual_composes (s : MiningSession) (b : Option ℚ) (t0 t1 t2 : ℚ)
    (hl : s.last_mined = some t0) (h01 : t0 ≤ t1) (h12 : t1 ≤ t2)
    (hact : s.is_active = true) :
    (mining_live_accrue (mining_live_accrue s b t1).1 (some (mining_live_accrue s b t1).2.1) t2).1.mined_amount
      = (mining_live_accrue s b t2).1.mined_amount ∧
    (mining_live_accrue (mining_live_accrue s b t1).1 (some (mining_live_accrue s b t1).2.1) t2).2.1
      = (mining_live_accrue s b t2).2.1 ∧
    (mining_live_accrue s b t1).2.2
        + (mining_live_accrue (mining_live_accrue s b t1).1 (some (mining_live_accrue s b t1).2.1) t2).2.2
      = (mining_live_accrue s b t2).2.2 := by
  refine ⟨?_, ?_, ?_⟩
  · simp [mining_live_accrue, hl]
    ring
  · simp [mining_live_accrue, hl]
    ring
  · simp [mining_live_accrue, hl]
    ring

/-- C7 witness: split accrual at a concrete session and times. -/
theorem C7_accrual_composes_witness :
    (mining_live_accrue (mining_live_accrue ⟨1, 70, some 0, some 0, 0, true⟩ (some 0) 10).1
        (some (mining_live_accrue ⟨1, 70, some 0, some 0, 0, true⟩ (some 0) 10).2.1) 30).1.mined_amount
      = (mining_live_accrue ⟨1, 70, some 0, some 0, 0, true⟩ (some 0) 30).1.mined_amount ∧
    (mining_live_accrue (mining_live_accrue ⟨1, 70, some 0, some 0, 0, true⟩ (some 0) 10).1
        (some (mining_live_accrue ⟨1, 70, some 0, some 0, 0, true⟩ (some 0) 10).2.1) 30).2.1
      = (mining_live_accrue ⟨1, 70, some 0, some 0, 0, true⟩ (some 0) 30).2.1 ∧
    (mining_live_accrue ⟨1, 70, some 0, some 0, 0, true⟩ (some 0) 10).2.2
        + (mining_live_accrue (mining_live_accrue ⟨1, 70, some 0, some 0, 0, true⟩ (some 0) 10).1
            (some (mining_live_accrue ⟨1, 70, some 0, some 0, 0, true⟩ (some 0) 10).2.1) 30).2.2
      = (mining_live_accrue ⟨1, 70, some 0, some 0, 0, true⟩ (some 0) 30).2.2 :=
  C7_accrual_composes ⟨1, 70, some 0, some 0, 0, true⟩ (some 0) 0 10 30
    rfl (by decide) (by decide) rfl

end Claims
namespace Claims

open Srv

/-- C5 counterexample: quantization is not floor rounding and the USD slot
is never read. VAL=1, RAW=60, base rate 1 gives exactly 1/60 dollars, yet
the function returns 0.02, strictly above the exact value, so it rounded
up; and a payload carrying only a USD value returns 0, not that value
times the base rate. -/
theorem C5_rounding_counterexample :
    calculate_reward_points ⟨some "1", none, some "60", none⟩ 1 = 2/100
      ∧ (1 : ℚ)/60 * 1 < 2/100
      ∧ calculate_reward_points ⟨none, none, none, some "10"⟩ 100 = 0 := by
  refine ⟨?_, by norm_num, ?_⟩
  · simp [calculate_reward_points, calcRewardPointsTry, parseDec, valSlot, rawSlot, pyOrD,
      pyOrStr, pyTruthy, parseDecNum, parseDecBody, parseExpPart, parseUnsignedDecTriple, splitOnDot, splitOnExp, pyDecClean,
      stripPyWs, isPyWs, digitsToNat, decNumToRat]
    norm_num [quantize2, roundHalfEven]
  · simp [calculate_reward_points, calcRewardPointsTry, parseDec, valSlot, rawSlot, pyOrD,
      pyOrStr, pyTruthy, parseDecNum, parseDecBody, parseExpPart, parseUnsignedDecTriple, splitOnDot, splitOnExp, pyDecClean,
      stripPyWs, isPyWs, digitsToNat, decNumToRat]

/-- C5 (amended): reward normalization divides the VAL/amount points by the
RAW unit (a USD-only payload normalizes to 0) and multiplies by the base
rate, quantized to 2 decimal places with round-half-even (not floor); the
concrete scenario VAL=600, RAW=60, base rate 100 yields exactly 1000.00
points, and the BitLabs completion webhook credits them as a pending
entry. -/
theorem C5_normalization_half_even :
    (∀ (p : CalcPayload) (b v r : ℚ), parseDec (valSlot p) = some v →
        parseDec (rawSlot p) = some r → 0 < v → r ≠ 0 →
        calculate_reward_points p b = quantize2 (v / r * b)) ∧
    calculate_reward_points ⟨some "600", none, some "60", none⟩ 100 = 1000 ∧
    bitlabs_callback (fun _ _ => true) ⟨[], [⟨42, "user42@mail.com", 0⟩], [], some 100⟩
        ⟨some "h", none, some "u", some "ABC123", none, some "42", none, some "600", none,
          some "60", none, none, none⟩
      = (⟨["ABC123"], [⟨42, "user42@mail.com", 0⟩],
          [⟨42, 1000, "bitlabs_reward", none, "pending"⟩], some 100⟩, .okCredit 1000) := by
  refine ⟨?_, ?_, ?_⟩
  · intro p b v r hv hr hvpos hrne
    simp [calculate_reward_points, calcRewardPointsTry, hv, hr, not_le.mpr hvpos, hrne]
  · simp [calculate_reward_points, calcRewardPointsTry, parseDec, valSlot, rawSlot, pyOrD,
      pyOrStr, pyTruthy, parseDecNum, parseDecBody, parseExpPart, parseUnsignedDecTriple, splitOnDot, splitOnExp, pyDecClean,
      stripPyWs, isPyWs, digitsToNat, decNumToRat]
    norm_num [quantize2, roundHalfEven]
  · simp [bitlabs_callback, bitlabs_callback_run, pyOrStr, pyTruthy, pyOrD, pyInt,
      pyIntDigits, underscoresBetweenDigits,
      bitlabsCalcPayload, calculate_reward_points, calcRewardPointsTry, valSlot, rawSlot,
      parseDec, parseDecNum, parseDecBody, parseExpPart, parseUnsignedDecTriple, splitOnDot, splitOnExp, pyDecClean,
      stripPyWs, isPyWs, digitsToNat, decNumToRat,
      List.find?]
    norm_num [quantize2, roundHalfEven]

/-- C5 witness: the general normalization shape at VAL=600, RAW=60,
base rate 100. -/
theorem C5_normalization_half_even_witness :
    calculate_reward_points ⟨some "600", none, some "60", none⟩ 100
      = quantize2 (600 / 60 * 100) :=
  C5_normalization_half_even.1 ⟨some "600", none, some "60", none⟩ 100 600 60
    (by
      have h : parseDecNum "600" = some (false, 600, 0, 0, 0) := by decide
      simp [parseDec, valSlot, pyOrD, pyOrStr, pyTruthy, h, decNumToRat])
    (by
      have h : parseDecNum "60" = some (false, 60, 0, 0, 0) := by decide
      simp [parseDec, rawSlot, pyOrD, pyOrStr, pyTruthy, h, decNumToRat])
    (by norm_num) (by norm_num)

end Claims
namespace Claims

open Srv

/-- C6 counterexample: a payload with positive VAL and negative RAW makes
calculate_reward_points return a negative amount: VAL=600 with RAW=-60,
and likewise with the exponent spelling RAW=-6e1, returns -1000 at base
rate 100 (while the well-formed exponent spelling VAL=6e2 credits 1000,
as Decimal parses it). -/
theorem C6_negative_counterexample :
    calculate_reward_points ⟨some "600", none, some "-60", none⟩ 100 = -1000
      ∧ calculate_reward_points ⟨some "600", none, some "-6e1", none⟩ 100 = -1000
      ∧ calculate_reward_points ⟨some "6e2", none, some "60", none⟩ 100 = 1000
      ∧ ((-1000 : ℚ) < 0) := by
  have hv : parseDecNum "600" = some (false, 600, 0, 0, 0) := by decide
  have hr1 : parseDecNum "-60" = some (true, 60, 0, 0, 0) := by decide
  have hr2 : parseDecNum "-6e1" = some (true, 6, 0, 0, 1) := by decide
  have hv2 : parseDecNum "6e2" = some (false, 6, 0, 0, 2) := by decide
  have hr3 : parseDecNum "60" = some (false, 60, 0, 0, 0) := by decide
  refine ⟨?_, ?_, ?_, by norm_num⟩
  · simp [calculate_reward_points, calcRewardPointsTry, parseDec, valSlot, rawSlot, pyOrD,
      pyOrStr, pyTruthy, hv, hr1, decNumToRat]
    norm_num [quantize2, roundHalfEven]
  · simp [calculate_reward_points, calcRewardPointsTry, parseDec, valSlot, rawSlot, pyOrD,
      pyOrStr, pyTruthy, hv, hr2, decNumToRat]
    norm_num [quantize2, roundHalfEven]
  · simp [calculate_reward_points, calcRewardPointsTry, parseDec, valSlot, rawSlot, pyOrD,
      pyOrStr, pyTruthy, hv2, hr3, decNumToRat]
    norm_num [quantize2, roundHalfEven]

/-- C6 (amended): calculate_reward_points is total (the except branch turns
every modelled exception into 0): a VAL/amount slot Decimal rejects
returns 0, a RAW slot Decimal rejects returns 0, a nonpositive parsed
provider_points returns 0 immediately, and the result is nonnegative
provided the RAW slot parses to a positive unit and the base rate is
nonnegative; a payload whose RAW parses negative - in plain or exponent
spelling - can return a negative amount (see the counterexample). -/
theorem C6_normalization_safe :
    (∀ (p : CalcPayload) (b : ℚ), parseDec (valSlot p) = none →
        calculate_reward_points p b = 0) ∧
    (∀ (p : CalcPayload) (b : ℚ), parseDec (rawSlot p) = none →
        calculate_reward_points p b = 0) ∧
    (∀ (p : CalcPayload) (b v : ℚ), parseDec (valSlot p) = some v → v ≤ 0 →
        calculate_reward_points p b = 0) ∧
    (∀ (p : CalcPayload) (b : ℚ), (∀ r, parseDec (rawSlot p) = some r → 0 < r) →
        0 ≤ b → 0 ≤ calculate_reward_points p b) := by
  refine ⟨?_, ?_, ?_, ?_⟩
  · intro p b hv
    simp [calculate_reward_points, calcRewardPointsTry, hv]
  · intro p b hr
    cases hv : parseDec (valSlot p) with
    | none => simp [calculate_reward_points, calcRewardPointsTry, hv]
    | some v => simp [calculate_reward_points, calcRewardPointsTry, hv, hr]
  · intro p b v hv hvle
    cases hr : parseDec (rawSlot p) with
    | none => simp [calculate_reward_points, calcRewardPointsTry, hv, hr]
    | some r => simp [calculate_reward_points, calcRewardPointsTry, hv, hr, hvle]
  · intro p b hraw hb
    cases hv : parseDec (valSlot p) with
    | none => simp [calculate_reward_points, calcRewardPointsTry, hv]
    | some v =>
      cases hr : parseDec (rawSlot p) with
      | none => simp [calculate_reward_points, calcRewardPointsTry, hv, hr]
      | some r =>
        have hrpos : 0 < r := hraw r hr
        by_cases hvle : v ≤ 0
        · simp [calculate_reward_points, calcRewardPointsTry, hv, hr, hvle]
        · have hvpos : 0 < v := lt_of_not_le hvle
          have hq : 0 ≤ quantize2 (v / r * b) :=
            quantize2_nonneg _ (by positivity)
          simp [calculate_reward_points, calcRewardPointsTry, hv, hr, hvle,
            ne_of_gt hrpos, hq]

/-- C6 witness: nonnegativity at a concrete well-formed payload. -/
theorem C6_normalization_safe_witness :
    0 ≤ calculate_reward_points ⟨some "600", none, some "60", none⟩ 100 :=
  C6_normalization_safe.2.2.2 ⟨some "600", none, some "60", none⟩ 100
    (by
      intro r hr
      have h : parseDecNum "60" = some (false, 60, 0, 0, 0) := by decide
      have h60 : parseDec (rawSlot (⟨some "600", none, some "60", none⟩ : CalcPayload))
          = some 60 := by
        simp [parseDec, rawSlot, pyOrD, pyOrStr, pyTruthy, h, decNumToRat]
      rw [h60] at hr
      have : r = 60 := by simpa using hr.symm
      simp [this])
    (by norm_num)

end Claims
namespace Claims

open Srv

/-- C10: a CPX Research webhook that passes parameter validation and the
hash check, is not a duplicate, and resolves to an existing user hits the
read of the unassigned local base_dollar_rate (server.py line 2974) and
raises, before the transaction is logged and before any completion or
reversal effect: the store is returned unchanged with the NameError
outcome. -/
theorem C10_cpx_known_user_name_error (verify : CpxParams → String → Bool)
    (db : DB) (p : CpxParams)
    (h1 : pyTruthy p.status = true) (h2 : pyTruthy p.trans_id = true)
    (h3 : pyTruthy p.user_id = true) (h4 : pyTruthy p.hash = true)
    (hsig : verify p (p.hash.getD "") = true)
    (hdup : p.trans_id.getD "" ∉ db.tx_log)
    (u : UserRec) (huser : cpxFindUser db (p.user_id.getD "") = some u) :
    cpx_research_webhook verify db p = (db, .nameError) := by
  simp [cpx_research_webhook, h1, h2, h3, h4, hsig, hdup, huser]

/-- C10 witness: the NameError outcome at a concrete valid request naming
user 42. -/
theorem C10_cpx_known_user_name_error_witness :
    cpx_research_webhook (fun _ _ => true) ⟨[], [⟨42, "user42@mail.com", 7⟩], [], some 100⟩
        ⟨some "1", some "T1", some "42", none, none, none, none, some "600", some "OF1",
          some "h", none⟩
      = (⟨[], [⟨42, "user42@mail.com", 7⟩], [], some 100⟩, .nameError) :=
  C10_cpx_known_user_name_error (fun _ _ => true) _ _
    (by decide) (by decide) (by decide) (by decide) rfl
    (by decide) ⟨42, "user42@mail.com", 7⟩ (by decide)

end Claims
namespace Srv

/-- BitLabs: a delivery whose validation passes and whose transaction ID is
not yet logged but whose UID matches no user commits the transaction ID and
returns the success-shaped user-not-found body, with no other change. -/
theorem bitlabs_unknown_user (verify : String → String → Bool) (db : DB) (p : BitlabsParams)
    (h : String) (hh : pyOrStr p.hash p.headerSig = some h) (hne : h ≠ "")
    (u : String) (hu : p.urlBeforeHash = some u)
    (hsig : verify u h = true)
    (i : ℤ) (hi : (pyOrStr p.UID p.user_id).bind pyInt = some i) (hipos : 0 < i)
    (t : String) (ht : pyOrStr p.TX p.transaction_id = some t) (htne : t ≠ "")
    (hdup : t ∉ db.tx_log)
    (hfind : db.users.find? (fun w => decide ((w.id : ℤ) = i)) = none) :
    bitlabs_callback verify db p
      = ({ db with tx_log := t :: db.tx_log }, .ok "user not found") := by
  simp [bitlabs_callback, bitlabs_callback_run, hh, hne, hu, hsig, hi,
    not_le.mpr hipos, ht, htne, hdup, hfind, pyTruthy]

/-- BitLabs: a delivery whose transaction ID is already logged returns the
duplicate body and leaves the store unchanged. -/
theorem bitlabs_duplicate (verify : String → String → Bool) (db : DB) (p : BitlabsParams)
    (h : String) (hh : pyOrStr p.hash p.headerSig = some h) (hne : h ≠ "")
    (u : String) (hu : p.urlBeforeHash = some u)
    (hsig : verify u h = true)
    (i : ℤ) (hi : (pyOrStr p.UID p.user_id).bind pyInt = some i) (hipos : 0 < i)
    (t : String) (ht : pyOrStr p.TX p.transaction_id = some t) (htne : t ≠ "")
    (hdup : t ∈ db.tx_log) :
    bitlabs_callback verify db p = (db, .ok "duplicate") := by
  simp [bitlabs_callback, bitlabs_callback_run, hh, hne, hu, hsig, hi,
    not_le.mpr hipos, ht, htne, hdup, pyTruthy]

/-- BitLabs: redelivering any payload to the store its first delivery
produced changes nothing. -/
theorem bitlabs_state_idempotent (verify : String → String → Bool) (db : DB) (p : BitlabsParams) :
    (bitlabs_callback verify (bitlabs_callback verify db p).1 p).1
      = (bitlabs_callback verify db p).1 := by
  by_cases h1 : pyTruthy (pyOrStr p.hash p.headerSig) = true
  case neg => simp [bitlabs_callback, bitlabs_callback_run, h1]
  case pos =>
  cases hu : p.urlBeforeHash with
  | none => simp [bitlabs_callback, bitlabs_callback_run, h1, hu]
  | some u =>
  by_cases h2 : verify u ((pyOrStr p.hash p.headerSig).getD "") = true
  case neg => simp [bitlabs_callback, bitlabs_callback_run, h1, hu, h2]
  case pos =>
  cases hi : (pyOrStr p.UID p.user_id).bind pyInt with
  | none => simp [bitlabs_callback, bitlabs_callback_run, h1, hu, h2, hi]
  | some i =>
  by_cases h3 : i ≤ 0
  case pos => simp [bitlabs_callback, bitlabs_callback_run, h1, hu, h2, hi, h3]
  case neg =>
  by_cases h4 : pyTruthy (pyOrStr p.TX p.transaction_id) = true
  case neg => simp [bitlabs_callback, bitlabs_callback_run, h1, hu, h2, hi, h3, h4]
  case pos =>
  by_cases h5 : (pyOrStr p.TX p.transaction_id).getD "" ∈ db.tx_log
  case pos => simp [bitlabs_callback, bitlabs_callback_run, h1, hu, h2, hi, h3, h4, h5]
  case neg =>
  have hmem : (pyOrStr p.TX p.transaction_id).getD ""
      ∈ (bitlabs_callback verify db p).1.tx_log := by
    cases hfind : db.users.find? (fun w => decide ((w.id : ℤ) = i)) with
    | none =>
      simp [bitlabs_callback, bitlabs_callback_run, h1, hu, h2, hi, h3, h4, h5, hfind]
    | some w =>
      simp only [bitlabs_callback, bitlabs_callback_run]
      simp [h1, hu, h2, hi, h3, h4, h5, hfind]
      split <;> simp
  conv_lhs => rw [bitlabs_callback]
  simp [bitlabs_callback_run, h1, hu, h2, hi, h3, h4, hmem]

/-- BitLabs: any number of redeliveries after the first leave the store at
the state of the first delivery. -/
theorem bitlabs_replay_fold (verify : String → String → Bool) (db : DB) (p : BitlabsParams) :
    ∀ n : ℕ, (List.replicate n p).foldl (fun d q => (bitlabs_callback verify d q).1)
        (bitlabs_callback verify db p).1
      = (bitlabs_callback verify db p).1 := by
  intro n
  induction n with
  | zero => simp
  | succ k ih =>
    rw [List.replicate_succ, List.foldl_cons, bitlabs_state_idempotent]
    exact ih

/-- CPX: a delivery whose transaction ID is already logged returns the
duplicate body and leaves the store unchanged. -/
theorem cpx_duplicate_short_circuit (verify : CpxParams → String → Bool) (db : DB) (p : CpxParams)
    (h1 : pyTruthy p.status = true) (h2 : pyTruthy p.trans_id = true)
    (h3 : pyTruthy p.user_id = true) (h4 : pyTruthy p.hash = true)
    (hsig : verify p (p.hash.getD "") = true)
    (hdup : p.trans_id.getD "" ∈ db.tx_log) :
    cpx_research_webhook verify db p = (db, .message "Duplicate transaction ignored") := by
  simp [cpx_research_webhook, h1, h2, h3, h4, hsig, hdup]

/-- CPX: a valid, non-duplicate delivery naming no existing user commits
the transaction ID and raises HTTP 404. -/
theorem cpx_unknown_user (verify : CpxParams → String → Bool) (db : DB) (p : CpxParams)
    (h1 : pyTruthy p.status = true) (h2 : pyTruthy p.trans_id = true)
    (h3 : pyTruthy p.user_id = true) (h4 : pyTruthy p.hash = true)
    (hsig : verify p (p.hash.getD "") = true)
    (hdup : p.trans_id.getD "" ∉ db.tx_log)
    (hfind : cpxFindUser db (p.user_id.getD "") = none) :
    cpx_research_webhook verify db p
      = ({ db with tx_log := p.trans_id.getD "" :: db.tx_log },
         .httpError 404 "User not found") := by
  simp [cpx_research_webhook, h1, h2, h3, h4, hsig, hdup, hfind]

/-- BitLabs: every state the handler commits already has the transaction
ID in the log. -/
theorem bitlabs_commits_tx_logged (verify : String → String → Bool) (db : DB) (p : BitlabsParams) :
    ∀ s ∈ (bitlabs_callback_run verify db p).2.2,
      (pyOrStr p.TX p.transaction_id).getD "" ∈ s.tx_log := by
  intro s hs
  unfold bitlabs_callback_run at hs
  simp only [] at hs
  split at hs
  · simp at hs
  · split at hs
    · simp at hs
    · split at hs
      · simp at hs
      · split at hs
        · simp at hs
        · split at hs
          · simp at hs
          · split at hs
            · simp at hs
            · split at hs
              · simp at hs
              · split at hs
                · simp at hs
                  subst hs
                  exact List.mem_cons_self _ _
                · simp at hs
                  rcases hs with hs | hs
                  · subst hs
                    exact List.mem_cons_self _ _
                  · subst hs
                    split
                    · exact List.mem_cons_self _ _
                    · exact List.mem_cons_self _ _

/-- BitLabs: on the known-user path the commit sequence is the pure
transaction-ID record followed by the state that also carries the
effect. -/
theorem bitlabs_commits_shape (verify : String → String → Bool) (db : DB) (p : BitlabsParams)
    (h : String) (hh : pyOrStr p.hash p.headerSig = some h) (hne : h ≠ "")
    (u : String) (hu : p.urlBeforeHash = some u)
    (hsig : verify u h = true)
    (i : ℤ) (hi : (pyOrStr p.UID p.user_id).bind pyInt = some i) (hipos : 0 < i)
    (t : String) (ht : pyOrStr p.TX p.transaction_id = some t) (htne : t ≠ "")
    (hdup : t ∉ db.tx_log)
    (w : UserRec) (hfind : db.users.find? (fun x => decide ((x.id : ℤ) = i)) = some w) :
    (bitlabs_callback_run verify db p).2.2
      = [⟨t :: db.tx_log, db.users, db.pending, db.base_dollar⟩,
         (bitlabs_callback verify db p).1] := by
  simp [bitlabs_callback, bitlabs_callback_run, hh, hne, hu, hsig, hi,
    not_le.mpr hipos, ht, htne, hdup, hfind, pyTruthy]

/-- BitLabs never touches the User rows. -/
theorem bitlabs_users_eq (verify : String → String → Bool) (db : DB) (p : BitlabsParams) :
    (bitlabs_callback verify db p).1.users = db.users := by
  unfold bitlabs_callback bitlabs_callback_run
  simp only []
  split
  · rfl
  · split
    · rfl
    · split
      · rfl
      · split
        · rfl
        · split
          · rfl
          · split
            · rfl
            · split
              · rfl
              · split
                · rfl
                · split <;> rfl

/-- CPX never touches the User rows (the effect code is unreachable). -/
theorem cpx_users_eq (verify : CpxParams → String → Bool) (db : DB) (p : CpxParams) :
    (cpx_research_webhook verify db p).1.users = db.users := by
  unfold cpx_research_webhook
  simp only []
  repeat' split
  all_goals rfl

/-- AdGem never commits a change to the User rows: the only line that
would, the reversal fallback, raises before the commit. -/
theorem adgem_users_eq (verify : AdgemParams → String → Bool) (db : DB) (p : AdgemParams) :
    (adgem_webhook verify db p).1.users = db.users := by
  unfold adgem_webhook
  simp only []
  repeat' split
  all_goals rfl

/-- Rule 1 does not fire when the user already has the fingerprint. -/
theorem rule_users_per_fp_reuse_skip (u : FraudUser) (db : FraudDB) (fp : String)
    (hfp : userHasFp db u.id fp = true) :
    rule_users_per_fp u db fp = (u, db, none) := by
  unfold rule_users_per_fp
  cases h : lookupRule db "max_users_per_fingerprint" with
  | none => rfl
  | some r => simp [hfp]

/-- Rule 2 does not fire when the user already has the fingerprint. -/
theorem rule_devices_per_user_reuse_skip (u : FraudUser) (db : FraudDB) (fp : String)
    (hfp : userHasFp db u.id fp = true) :
    rule_devices_per_user u db fp = (u, db, none) := by
  unfold rule_devices_per_user
  cases h : lookupRule db "max_devices_per_user" with
  | none => rfl
  | some r => simp [hfp]

/-- Rule 3 does not fire when the IP is already on record in the window. -/
theorem rule_ips_reuse_skip (u : FraudUser) (db : FraudDB) (ip : String) (now : ℚ)
    (hip : userHasIp24h db u.id ip now = true) :
    rule_ips_per_user_24h u db ip now = (u, db, none) := by
  unfold rule_ips_per_user_24h
  cases h : lookupRule db "max_ips_per_user_24h" with
  | none => rfl
  | some r => simp [hip]

/-- Device tracking for a fully known (fingerprint, IP) pair is a no-op. -/
theorem track_user_device_reuse_noop (u : FraudUser) (db : FraudDB) (fp ip ua : String) (now : ℚ)
    (hadmin : u.is_admin = false)
    (hfp : userHasFp db u.id fp = true)
    (hip : userHasIp24h db u.id ip now = true) :
    track_user_device u db fp ip ua now = (u, db, .allowed) := by
  have hany : db.devices.any (fun d =>
      decide (d.user_id = u.id) && decide (d.device_fingerprint = fp)) = true := by
    simpa [userHasFp] using hfp
  unfold track_user_device
  simp [hadmin, rule_users_per_fp_reuse_skip u db fp hfp,
    rule_devices_per_user_reuse_skip u db fp hfp,
    rule_ips_reuse_skip u db ip now hip, hany]

/-- The login fraud pass for a fully known (fingerprint, IP) pair is a
no-op. -/
theorem login_fraud_check_reuse_noop (u : FraudUser) (db : FraudDB) (fp ip ua : String) (now : ℚ)
    (hadmin : u.is_admin = false)
    (hfp : userHasFp db u.id fp = true)
    (hip : userHasIp24h db u.id ip now = true) :
    login_fraud_check u db fp ip ua now = (u, db, .allowed) := by
  unfold login_fraud_check
  simp [hadmin, rule_users_per_fp_reuse_skip u db fp hfp,
    rule_devices_per_user_reuse_skip u db fp hfp,
    track_user_device_reuse_noop u db fp ip ua now hadmin hfp hip]

end Srv
namespace Claims

open Srv

/-- C1: a webhook delivery whose transaction ID already has a
TransactionLog record returns the duplicate/success-shaped body with no
state change, in both the BitLabs and the CPX handlers; redelivering any
BitLabs payload is state-idempotent, and any number of replays leave the
store at the state of the first delivery, so at most one balance effect is
ever applied per transaction ID, the one of the first delivery. -/
theorem C1_duplicate_no_second_effect :
    (∀ (verify : String → String → Bool) (db : DB) (p : BitlabsParams)
        (h : String), pyOrStr p.hash p.headerSig = some h → h ≠ "" →
        ∀ u : String, p.urlBeforeHash = some u → verify u h = true →
        ∀ i : ℤ, (pyOrStr p.UID p.user_id).bind pyInt = some i → 0 < i →
        ∀ t : String, pyOrStr p.TX p.transaction_id = some t → t ≠ "" →
        t ∈ db.tx_log →
        bitlabs_callback verify db p = (db, .ok "duplicate")) ∧
    (∀ (verify : String → String → Bool) (db : DB) (p : BitlabsParams),
        (bitlabs_callback verify (bitlabs_callback verify db p).1 p).1
          = (bitlabs_callback verify db p).1) ∧
    (∀ (verify : String → String → Bool) (db : DB) (p : BitlabsParams) (n : ℕ),
        (List.replicate n p).foldl (fun d q => (bitlabs_callback verify d q).1)
            (bitlabs_callback verify db p).1
          = (bitlabs_callback verify db p).1) ∧
    (∀ (verify : CpxParams → String → Bool) (db : DB) (p : CpxParams),
        pyTruthy p.status = true → pyTruthy p.trans_id = true →
        pyTruthy p.user_id = true → pyTruthy p.hash = true →
        verify p (p.hash.getD "") = true →
        p.trans_id.getD "" ∈ db.tx_log →
        cpx_research_webhook verify db p
          = (db, .message "Duplicate transaction ignored")) :=
  ⟨fun verify db p h hh hne u hu hsig i hi hipos t ht htne hdup =>
      bitlabs_duplicate verify db p h hh hne u hu hsig i hi hipos t ht htne hdup,
   bitlabs_state_idempotent,
   fun verify db p n => bitlabs_replay_fold verify db p n,
   fun verify db p h1 h2 h3 h4 hsig hdup =>
      cpx_duplicate_short_circuit verify db p h1 h2 h3 h4 hsig hdup⟩

/-- C1 witness: duplicate short-circuits at concrete BitLabs and CPX
requests whose transaction IDs are already logged. -/
theorem C1_duplicate_no_second_effect_witness :
    bitlabs_callback (fun _ _ => true) ⟨["ABC123"], [], [], none⟩
        ⟨some "h", none, some "u", some "ABC123", none, some "42", none, some "600", none,
          some "60", none, none, none⟩
      = (⟨["ABC123"], [], [], none⟩, .ok "duplicate") ∧
    cpx_research_webhook (fun _ _ => true) ⟨["T1"], [], [], none⟩
        ⟨some "1", some "T1", some "7", none, none, none, none, none, none, some "h", none⟩
      = (⟨["T1"], [], [], none⟩, .message "Duplicate transaction ignored") :=
  ⟨C1_duplicate_no_second_effect.1 (fun _ _ => true) _ _
      "h" (by decide) (by decide) "u" rfl rfl 42 (by decide) (by decide)
      "ABC123" (by decide) (by decide) (by decide),
   C1_duplicate_no_second_effect.2.2.2 (fun _ _ => true) _ _
      (by decide) (by decide) (by decide) (by decide) rfl (by decide)⟩

/-- C2 counterexample: on the happy path the BitLabs handler commits
twice; the first committed state carries the transaction ID with the
pending-point effect still absent, so recording and effect are not one
atomic unit. -/
theorem C2_atomicity_counterexample :
    bitlabs_callback_run (fun _ _ => true) ⟨[], [⟨42, "user42@mail.com", 0⟩], [], some 100⟩
        ⟨some "h", none, some "u", some "TX7", none, some "42", none, some "600", none,
          some "60", none, none, none⟩
      = (⟨["TX7"], [⟨42, "user42@mail.com", 0⟩],
            [⟨42, 1000, "bitlabs_reward", none, "pending"⟩], some 100⟩,
         .okCredit 1000,
         [⟨["TX7"], [⟨42, "user42@mail.com", 0⟩], [], some 100⟩,
          ⟨["TX7"], [⟨42, "user42@mail.com", 0⟩],
            [⟨42, 1000, "bitlabs_reward", none, "pending"⟩], some 100⟩]) ∧
    "TX7" ∈ (⟨["TX7"], [⟨42, "user42@mail.com", 0⟩], [], some 100⟩ : DB).tx_log ∧
    (⟨["TX7"], [⟨42, "user42@mail.com", 0⟩], [], some 100⟩ : DB).pending = [] := by
  refine ⟨?_, by decide, by decide⟩
  have hv : parseDecNum "600" = some (false, 600, 0, 0, 0) := by decide
  have hr : parseDecNum "60" = some (false, 60, 0, 0, 0) := by decide
  simp [bitlabs_callback_run, pyOrStr, pyTruthy, pyOrD, pyInt, pyIntDigits,
    underscoresBetweenDigits, stripPyWs, isPyWs, digitsToNat, bitlabsCalcPayload,
    calculate_reward_points, calcRewardPointsTry, valSlot, rawSlot, parseDec, hv, hr,
    decNumToRat, List.find?]
  norm_num [quantize2, roundHalfEven]

/-- C2 (amended): the transaction ID is committed first in its own
transaction and the balance effect in a second commit: every state the
handler commits already carries the transaction ID (so no effect is ever
committed without the record), and on the known-user path the commit
sequence is exactly the pure transaction-ID record followed by the final
state, so a committed state exists in which the ID is recorded and the
effect not yet applied. -/
theorem C2_record_precedes_effect :
    (∀ (verify : String → String → Bool) (db : DB) (p : BitlabsParams),
        ∀ s ∈ (bitlabs_callback_run verify db p).2.2,
          (pyOrStr p.TX p.transaction_id).getD "" ∈ s.tx_log) ∧
    (∀ (verify : String → String → Bool) (db : DB) (p : BitlabsParams)
        (h : String), pyOrStr p.hash p.headerSig = some h → h ≠ "" →
        ∀ u : String, p.urlBeforeHash = some u → verify u h = true →
        ∀ i : ℤ, (pyOrStr p.UID p.user_id).bind pyInt = some i → 0 < i →
        ∀ t : String, pyOrStr p.TX p.transaction_id = some t → t ≠ "" →
        t ∉ db.tx_log →
        ∀ w : UserRec, db.users.find? (fun x => decide ((x.id : ℤ) = i)) = some w →
        (bitlabs_callback_run verify db p).2.2
          = [⟨t :: db.tx_log, db.users, db.pending, db.base_dollar⟩,
             (bitlabs_callback verify db p).1]) :=
  ⟨bitlabs_commits_tx_logged,
   fun verify db p h hh hne u hu hsig i hi hipos t ht htne hdup w hfind =>
      bitlabs_commits_shape verify db p h hh hne u hu hsig i hi hipos t ht htne hdup w hfind⟩

/-- C2 witness: the two-commit shape at a concrete known-user request. -/
theorem C2_record_precedes_effect_witness :
    (bitlabs_callback_run (fun _ _ => true) ⟨[], [⟨42, "user42@mail.com", 0⟩], [], some 100⟩
        ⟨some "h", none, some "u", some "TX8", none, some "42", none, some "600", none,
          some "60", none, none, none⟩).2.2
      = [⟨["TX8"], [⟨42, "user42@mail.com", 0⟩], [], some 100⟩,
         (bitlabs_callback (fun _ _ => true) ⟨[], [⟨42, "user42@mail.com", 0⟩], [], some 100⟩
            ⟨some "h", none, some "u", some "TX8", none, some "42", none, some "600", none,
              some "60", none, none, none⟩).1] :=
  C2_record_precedes_effect.2 (fun _ _ => true) _ _
    "h" (by decide) (by decide) "u" rfl rfl 42 (by decide) (by decide)
    "TX8" (by decide) (by decide) (by decide) ⟨42, "user42@mail.com", 0⟩ (by decide)

/-- C4: the claim's floored deduction never executes. The AdGem reversal
fallback (server.py line 3187) reads user.points, an attribute the User
model does not have (its balance column is points_balance), so a valid
reversal with no matching pending entry and a positive normalized amount
raises an uncaught AttributeError and commits nothing - at the concrete
failing input the handler returns the store unchanged, not even logging
the transaction ID, although the normalized deduction is 1000; and no
handler ever commits a change to a User row, so the spendable balance is
untouched by every webhook path. -/
theorem C4_adgem_reversal_attribute_error :
    calculate_reward_points ⟨some "600", none, none, none⟩ 100 = 1000 ∧
    adgem_webhook (fun _ _ => true) ⟨[], [⟨42, "user42@mail.com", 5⟩], [], some 100⟩
        ⟨some "2", some "R1", some "42", none, some "600", none, none,
          some "OF", none, some "v"⟩
      = (⟨[], [⟨42, "user42@mail.com", 5⟩], [], some 100⟩, .attributeError) ∧
    (∀ (verify : AdgemParams → String → Bool) (db : DB) (p : AdgemParams),
        (adgem_webhook verify db p).1.users = db.users) ∧
    (∀ (verify : String → String → Bool) (db : DB) (p : BitlabsParams),
        (bitlabs_callback verify db p).1.users = db.users) ∧
    (∀ (verify : CpxParams → String → Bool) (db : DB) (p : CpxParams),
        (cpx_research_webhook verify db p).1.users = db.users) := by
  refine ⟨?_, ?_, adgem_users_eq, bitlabs_users_eq, cpx_users_eq⟩
  · simp [calculate_reward_points, calcRewardPointsTry, parseDec, valSlot, rawSlot, pyOrD,
      pyOrStr, pyTruthy, parseDecNum, parseDecBody, parseExpPart, parseUnsignedDecTriple, splitOnDot, splitOnExp,
      pyDecClean, stripPyWs, isPyWs, digitsToNat, decNumToRat]
    norm_num [quantize2, roundHalfEven]
  · simp [adgem_webhook, pyTruthy, pyInt, pyIntDigits, underscoresBetweenDigits, stripPyWs,
      isPyWs, digitsToNat, List.find?, calculate_reward_points, calcRewardPointsTry, valSlot,
      rawSlot, pyOrD, pyOrStr, parseDec, parseDecNum, parseDecBody, parseExpPart, parseUnsignedDecTriple, splitOnDot,
      splitOnExp, pyDecClean, decNumToRat]
    norm_num [quantize2, roundHalfEven]

end Claims
namespace Claims

open Srv

/-- C8 counterexample: a signature-valid, non-duplicate CPX request naming
an unknown user records the transaction ID but raises HTTP 404 rather than
returning a success-shaped result. -/
theorem C8_cpx_404_counterexample :
    cpx_research_webhook (fun _ _ => true) ⟨[], [], [], none⟩
        ⟨some "1", some "T9", some "7", none, none, none, none, none, none, some "h", none⟩
      = (⟨["T9"], [], [], none⟩, .httpError 404 "User not found") := by
  decide

/-- C8 (amended): on a signature-valid, non-duplicate delivery naming no
existing user, both handlers record the transaction ID (preventing
replay) and apply no balance effect; the BitLabs handler returns the
success-shaped user-not-found body, but the CPX handler raises HTTP 404
after recording, an error response the provider may treat as a failure. -/
theorem C8_unknown_user_recorded_no_credit :
    (∀ (verify : String → String → Bool) (db : DB) (p : BitlabsParams)
        (h : String), pyOrStr p.hash p.headerSig = some h → h ≠ "" →
        ∀ u : String, p.urlBeforeHash = some u → verify u h = true →
        ∀ i : ℤ, (pyOrStr p.UID p.user_id).bind pyInt = some i → 0 < i →
        ∀ t : String, pyOrStr p.TX p.transaction_id = some t → t ≠ "" →
        t ∉ db.tx_log →
        db.users.find? (fun w => decide ((w.id : ℤ) = i)) = none →
        bitlabs_callback verify db p
          = ({ db with tx_log := t :: db.tx_log }, .ok "user not found")) ∧
    (∀ (verify : CpxParams → String → Bool) (db : DB) (p : CpxParams),
        pyTruthy p.status = true → pyTruthy p.trans_id = true →
        pyTruthy p.user_id = true → pyTruthy p.hash = true →
        verify p (p.hash.getD "") = true →
        p.trans_id.getD "" ∉ db.tx_log →
        cpxFindUser db (p.user_id.getD "") = none →
        cpx_research_webhook verify db p
          = ({ db with tx_log := p.trans_id.getD "" :: db.tx_log },
             .httpError 404 "User not found")) :=
  ⟨fun verify db p h hh hne u hu hsig i hi hipos t ht htne hdup hfind =>
      bitlabs_unknown_user verify db p h hh hne u hu hsig i hi hipos t ht htne hdup hfind,
   fun verify db p h1 h2 h3 h4 hsig hdup hfind =>
      cpx_unknown_user verify db p h1 h2 h3 h4 hsig hdup hfind⟩

/-- C8 witness: unknown-user handling at concrete BitLabs and CPX
requests. -/
theorem C8_unknown_user_recorded_no_credit_witness :
    bitlabs_callback (fun _ _ => true) ⟨[], [], [], none⟩
        ⟨some "h", none, some "u", some "TXU", none, some "42", none, some "600", none,
          some "60", none, none, none⟩
      = (⟨["TXU"], [], [], none⟩, .ok "user not found") ∧
    cpx_research_webhook (fun _ _ => true) ⟨[], [], [], none⟩
        ⟨some "1", some "TU2", some "7", none, none, none, none, none, none, some "h", none⟩
      = (⟨["TU2"], [], [], none⟩, .httpError 404 "User not found") :=
  ⟨C8_unknown_user_recorded_no_credit.1 (fun _ _ => true) _ _
      "h" (by decide) (by decide) "u" rfl rfl 42 (by decide) (by decide)
      "TXU" (by decide) (by decide) (by decide) (by decide),
   C8_unknown_user_recorded_no_credit.2 (fun _ _ => true) _ _
      (by decide) (by decide) (by decide) (by decide) rfl (by decide) (by decide)⟩

/-- C9: for a non-admin user who already has fingerprint F on record,
neither fingerprint rule fires regardless of the counts, and when the IP
is also on record in the window both the device-tracking pass and the
login fraud pass leave the user and store unchanged and allow the
request: re-use of a known device never counts toward the thresholds and
never flags or blocks. -/
theorem C9_known_device_reuse_noop :
    (∀ (u : FraudUser) (db : FraudDB) (fp : String), userHasFp db u.id fp = true →
        rule_users_per_fp u db fp = (u, db, none)) ∧
    (∀ (u : FraudUser) (db : FraudDB) (fp : String), userHasFp db u.id fp = true →
        rule_devices_per_user u db fp = (u, db, none)) ∧
    (∀ (u : FraudUser) (db : FraudDB) (fp ip ua : String) (now : ℚ),
        u.is_admin = false → userHasFp db u.id fp = true →
        userHasIp24h db u.id ip now = true →
        track_user_device u db fp ip ua now = (u, db, .allowed)) ∧
    (∀ (u : FraudUser) (db : FraudDB) (fp ip ua : String) (now : ℚ),
        u.is_admin = false → userHasFp db u.id fp = true →
        userHasIp24h db u.id ip now = true →
        login_fraud_check u db fp ip ua now = (u, db, .allowed)) :=
  ⟨fun u db fp hfp => rule_users_per_fp_reuse_skip u db fp hfp,
   fun u db fp hfp => rule_devices_per_user_reuse_skip u db fp hfp,
   fun u db fp ip ua now hadmin hfp hip =>
      track_user_device_reuse_noop u db fp ip ua now hadmin hfp hip,
   fun u db fp ip ua now hadmin hfp hip =>
      login_fraud_check_reuse_noop u db fp ip ua now hadmin hfp hip⟩

/-- C9 witness: a repeat login from a known device and IP at limits 1 with
blocking rules configured is allowed and changes nothing. -/
theorem C9_known_device_reuse_noop_witness :
    login_fraud_check ⟨1, false, false, "approved"⟩
        ⟨[⟨"max_users_per_fingerprint", 1, "flag_and_block"⟩,
          ⟨"max_devices_per_user", 1, "block"⟩,
          ⟨"max_ips_per_user_24h", 1, "block"⟩],
         [⟨1, "F", "IP", "UA", 0⟩], []⟩ "F" "IP" "UA" 10
      = (⟨1, false, false, "approved"⟩,
         ⟨[⟨"max_users_per_fingerprint", 1, "flag_and_block"⟩,
           ⟨"max_devices_per_user", 1, "block"⟩,
           ⟨"max_ips_per_user_24h", 1, "block"⟩],
          [⟨1, "F", "IP", "UA", 0⟩], []⟩, .allowed) :=
  C9_known_device_reuse_noop.2.2.2 ⟨1, false, false, "approved"⟩ _ "F" "IP" "UA" 10
    rfl (by decide)
    (by
      simp [userHasIp24h]
      norm_num)

end Claims
